import Mathlib

/-!
Verification development for the `python_x509_pkcs11` repository.

The repository wraps a PKCS#11 cryptographic device behind a persistent,
lock-protected session (`src/python_x509_pkcs11/pkcs11_handle.py`), builds
CSR structures (`src/python_x509_pkcs11/root_ca.py`) and OCSP
requests/responses (module `ocsp`, exercised by `tests/test_ocsp.py`).

This file shallowly embeds the operations relevant to the frozen claims:
- the device is a store of labelled key objects; device calls are explicit
  state passing and fallible calls return `Except`;
- the external encoders/hashes (asn1crypto, pkcs11.util) are out-of-repo
  collaborators and enter the model as function parameters;
- lock/health-probe ordering is modelled as event traces with a small
  interleaving semantics;
- the health probe's timeout logic is modelled over abstract probe attempts
  described by a wall-clock duration and a resulting session status.
-/

namespace PKCS11

/-- Key types of `lib.KEYTYPES` as used throughout `pkcs11_handle.py`. -/
inductive KEYTYPES where
  | ED25519
  | ED448
  | RSA2048
  | RSA4096
  | SECP256r1
  | SECP384r1
  | SECP521r1
  deriving DecidableEq, Repr

/-- Object classes of key objects on the device (`pkcs11.ObjectClass`). -/
inductive ObjectClass where
  | PUBLIC_KEY
  | PRIVATE_KEY
  deriving DecidableEq, Repr

/-- The device-level errors distinguished by `pkcs11.exceptions`. -/
inductive PKCS11Error where
  | NoSuchKey
  | MultipleObjectsReturned
  | GeneralError
  | SignatureInvalid
  deriving DecidableEq, Repr

/-- A key object resident on the device: label, key type, object class, and
the encoded public-key bytes that the encoders return for it (bytes as
naturals). -/
structure PKCS11Key where
  label : String
  keytype : KEYTYPES
  objClass : ObjectClass
  encoded : List Nat
  deriving DecidableEq, Repr

/-- The device state: the multiset of key objects it stores. -/
structure DeviceState where
  keys : List PKCS11Key
  deriving DecidableEq, Repr

/-- Whether a stored object matches a `get_key` query. -/
def keyMatches (key_label : String) (key_type : KEYTYPES) (oc : ObjectClass)
    (k : PKCS11Key) : Bool :=
  k.label = key_label ∧ k.keytype = key_type ∧ k.objClass = oc

/-- `session.get_key`: raises `NoSuchKey` when no object matches and
`MultipleObjectsReturned` when several do. -/
def get_key (st : DeviceState) (key_label : String) (key_type : KEYTYPES)
    (oc : ObjectClass) : Except PKCS11Error PKCS11Key :=
  match st.keys.filter (keyMatches key_label key_type oc) with
  | [] => .error .NoSuchKey
  | [k] => .ok k
  | _ :: _ :: _ => .error .MultipleObjectsReturned

/-- `PKCS11Session._get_pub_key`: fetch the public key under a label/type. -/
def _get_pub_key (st : DeviceState) (key_label : String) (key_type : KEYTYPES) :
    Except PKCS11Error PKCS11Key :=
  get_key st key_label key_type .PUBLIC_KEY

/-- `session.generate_keypair` (also the EC/EdDSA `parameters.generate_keypair`
paths): stores a public and a private key object under the label and returns
the public half. `fresh` is the encoded public-key bytes of the new keypair. -/
def generate_keypair (st : DeviceState) (key_label : String) (key_type : KEYTYPES)
    (fresh : List Nat) : PKCS11Key × DeviceState :=
  let key_pub : PKCS11Key := ⟨key_label, key_type, .PUBLIC_KEY, fresh⟩
  let key_priv : PKCS11Key := ⟨key_label, key_type, .PRIVATE_KEY, fresh⟩
  (key_pub, ⟨key_pub :: key_priv :: st.keys⟩)

/-- `PKCS11Session._public_key_data`. Every branch builds an asn1crypto
`PublicKeyInfo` whose `public_key` field holds exactly the key's encoded
public-key bytes, PEM-armors its dump, and returns `pki.sha1`, which is the
SHA-1 digest of those `public_key` bytes. `sha1` and `armor` stand for the
external hash and PEM encoder. -/
def _public_key_data (sha1 : List Nat → List Nat) (armor : List Nat → String)
    (key_pub : PKCS11Key) (key_type : KEYTYPES) : String × List Nat :=
  if key_type = .RSA2048 ∨ key_type = .RSA4096 then
    (armor key_pub.encoded, sha1 key_pub.encoded)
  else if key_type = .ED25519 ∨ key_type = .ED448 then
    (armor key_pub.encoded, sha1 key_pub.encoded)
  else
    (armor key_pub.encoded, sha1 key_pub.encoded)

/-- `PKCS11Session.create_keypair` (local device path, inside the lock after
`healthy_session`): first tries `_get_pub_key`; if a key is found it raises
`MultipleObjectsReturned`; only on `NoSuchKey` does it generate the keypair
(type-specific parameters) and return `_public_key_data`. Any other error of
the lookup propagates. The returned state is the device state after the call. -/
def create_keypair (sha1 : List Nat → List Nat) (armor : List Nat → String)
    (st : DeviceState) (key_label : String) (key_type : KEYTYPES)
    (fresh : List Nat) : Except PKCS11Error (String × List Nat) × DeviceState :=
  match _get_pub_key st key_label key_type with
  | .ok _ => (.error .MultipleObjectsReturned, st)
  | .error .NoSuchKey =>
      let gen := generate_keypair st key_label key_type fresh
      (.ok (_public_key_data sha1 armor gen.1 key_type), gen.2)
  | .error e => (.error e, st)

/-- `PKCS11Session.public_key_data` (local device path): `_get_pub_key` then
`_public_key_data`. -/
def public_key_data (sha1 : List Nat → List Nat) (armor : List Nat → String)
    (st : DeviceState) (key_label : String) (key_type : KEYTYPES) :
    Except PKCS11Error (String × List Nat) :=
  match _get_pub_key st key_label key_type with
  | .ok key_pub => .ok (_public_key_data sha1 armor key_pub key_type)
  | .error e => .error e

/-- `object.destroy()`: remove the object from the device. -/
def destroyObject (st : DeviceState) (k : PKCS11Key) : DeviceState :=
  ⟨st.keys.erase k⟩

/-- `PKCS11Session.delete_keypair` (local device path): destroy the public key
in a `try` block, destroy the private key in the `finally` block. Python
`try`/`finally` semantics: the `finally` clause always runs; an exception
raised there replaces the pending one, otherwise the pending exception
propagates. -/
def delete_keypair (st : DeviceState) (key_label : String) (key_type : KEYTYPES) :
    Except PKCS11Error Unit × DeviceState :=
  let pubStep : Except PKCS11Error Unit × DeviceState :=
    match get_key st key_label key_type .PUBLIC_KEY with
    | .ok k => (.ok (), destroyObject st k)
    | .error e => (.error e, st)
  let privStep : Except PKCS11Error Unit × DeviceState :=
    match get_key pubStep.2 key_label key_type .PRIVATE_KEY with
    | .ok k => (.ok (), destroyObject pubStep.2 k)
    | .error e => (.error e, pubStep.2)
  match privStep.1, pubStep.1 with
  | .error e, _ => (.error e, privStep.2)
  | .ok _, .error e => (.error e, privStep.2)
  | .ok _, .ok _ => (.ok (), privStep.2)

/-! ### Health probe and timeouts (`healthy_session`, `_open_session`, `TIMEOUT`) -/

/-- `TIMEOUT = 10  # Seconds` from `pkcs11_handle.py`. -/
def TIMEOUT : Nat := 10

/-- One run of `_open_session` in its worker thread, abstracted by the
wall-clock time the thread takes and the `_session_status` it leaves behind
(`0` means the probe round-trip succeeded). -/
structure ProbeAttempt where
  duration : Nat
  status : Nat
  deriving DecidableEq, Repr

/-- After `thread.join(timeout=TIMEOUT)` the caller gives up on an attempt
when the thread is still alive (it overran the budget) or when the recorded
session status is not `0`. -/
def attemptFails (a : ProbeAttempt) : Bool :=
  decide (TIMEOUT < a.duration) || decide (a.status ≠ 0)

/-- Outcome of `healthy_session`: normal return, or the raised
`PKCS11UnknownErrorException`. -/
inductive HealthOutcome where
  | ok
  | unknownError
  deriving DecidableEq, Repr

/-- `PKCS11Session.healthy_session`, modelled over the two possible
`_open_session` attempts (`a1` without force, `a2` with force). Returns the
outcome, the `force` flags of the attempts actually started, and the
wall-clock time the caller spends waiting in the two bounded joins. -/
def healthy_session (support_recreate_session : Bool) (a1 a2 : ProbeAttempt) :
    HealthOutcome × List Bool × Nat :=
  if support_recreate_session = false then
    (.ok, [], 0)
  else if attemptFails a1 = false then
    (.ok, [false], min a1.duration TIMEOUT)
  else if attemptFails a2 = false then
    (.ok, [false, true], min a1.duration TIMEOUT + min a2.duration TIMEOUT)
  else
    (.unknownError, [false, true], min a1.duration TIMEOUT + min a2.duration TIMEOUT)

/-! ### Mechanism selection in `sign` -/

/-- The PKCS#11 mechanisms selected by `sign`/`verify`. -/
inductive Mechanism where
  | EDDSA
  | ECDSA
  | SHA256_RSA_PKCS
  | SHA512_RSA_PKCS
  deriving DecidableEq, Repr

/-- Pre-hash algorithms applied by `sign` before an ECDSA device call. -/
inductive HashAlg where
  | sha256
  | sha384
  | sha512
  deriving DecidableEq, Repr

/-- What `sign` hands to the device: the caller's data unchanged, or its
digest under one of the hash algorithms. -/
inductive DeviceData where
  | raw
  | digest (h : HashAlg)
  deriving DecidableEq, Repr

/-- What `sign` returns: the device output unchanged, or the device's
fixed-width R‖S output converted by `convert_rs_ec_signature` (an ASN.1 DER
Ecdsa-Sig-Value) for the named curve. -/
inductive SigForm where
  | deviceNative
  | convertedRS (curve : String)
  deriving DecidableEq, Repr

/-- The string values of `lib.KEYTYPES`, as used by `key_labels` and by
`convert_rs_ec_signature(signature, key_type.value)`. -/
def KEYTYPES.value : KEYTYPES → String
  | .ED25519 => "ed25519"
  | .ED448 => "ed448"
  | .RSA2048 => "rsa_2048"
  | .RSA4096 => "rsa_4096"
  | .SECP256r1 => "secp256r1"
  | .SECP384r1 => "secp384r1"
  | .SECP521r1 => "secp521r1"

/-- The routing decision of one `sign` call. -/
structure SignRoute where
  mech : Mechanism
  sent : DeviceData
  out : SigForm
  deriving DecidableEq, Repr

/-- `PKCS11Session.sign` (local device path), its mechanism/preprocessing
branch followed by the post-`_sign` EC conversion: EdDSA keys use `EDDSA` on
the raw data; EC keys hash the data (SHA-256/384/512 by curve), use `ECDSA`,
and convert the R‖S result; RSA keys use `SHA256_RSA_PKCS` (2048) or
`SHA512_RSA_PKCS` (4096) on the raw data. -/
def sign_route (key_type : KEYTYPES) : SignRoute :=
  if key_type = .ED25519 ∨ key_type = .ED448 then
    ⟨.EDDSA, .raw, .deviceNative⟩
  else if key_type = .SECP256r1 ∨ key_type = .SECP384r1 ∨ key_type = .SECP521r1 then
    let h : HashAlg :=
      if key_type = .SECP256r1 then .sha256
      else if key_type = .SECP384r1 then .sha384
      else .sha512
    ⟨.ECDSA, .digest h, .convertedRS key_type.value⟩
  else
    let m : Mechanism :=
      if key_type = .RSA2048 then .SHA256_RSA_PKCS else .SHA512_RSA_PKCS
    ⟨m, .raw, .deviceNative⟩

/-! ### Lock discipline of the device-touching operations

Every local (non-HTTP) operation of `PKCS11Session` has the shape
`async with async_lock(self.lock): await self.healthy_session(); <device work>`.
We record each operation as a trace of events and give the traces a small
interleaving semantics with one shared lock. -/

/-- Events of a device-touching operation: acquiring and releasing
`self.lock`, the `healthy_session` call, and individual device calls. -/
inductive Event where
  | acquire
  | release
  | probe
  | deviceOp
  deriving DecidableEq, Repr

/-- Trace of `create_keypair` (local path): lock, probe, `_get_pub_key`,
`generate_keypair`. -/
def create_keypair_trace : List Event :=
  [.acquire, .probe, .deviceOp, .deviceOp, .release]

/-- Trace of `import_keypair` (local path): lock, probe, `_get_pub_key`,
`create_object` twice. -/
def import_keypair_trace : List Event :=
  [.acquire, .probe, .deviceOp, .deviceOp, .deviceOp, .release]

/-- Trace of `delete_keypair` (local path): lock, probe, `get_key` +
`destroy` for the public key, then for the private key. -/
def delete_keypair_trace : List Event :=
  [.acquire, .probe, .deviceOp, .deviceOp, .deviceOp, .deviceOp, .release]

/-- Trace of `public_key_data` (local path): lock, probe, `_get_pub_key`. -/
def public_key_data_trace : List Event :=
  [.acquire, .probe, .deviceOp, .release]

/-- Trace of `import_certificate` (local path): lock, probe, `get_objects`,
`create_object`. -/
def import_certificate_trace : List Event :=
  [.acquire, .probe, .deviceOp, .deviceOp, .release]

/-- Trace of `export_certificate` (local path): lock, probe, `get_objects`. -/
def export_certificate_trace : List Event :=
  [.acquire, .probe, .deviceOp, .release]

/-- Trace of `delete_certificate` (local path): lock, probe, `get_objects`
with the matching objects destroyed. -/
def delete_certificate_trace : List Event :=
  [.acquire, .probe, .deviceOp, .release]

/-- Trace of `key_labels` (local path): lock, probe, one `get_objects` query
for RSA, ed25519, ed448, and each of the three EC curves. -/
def key_labels_trace : List Event :=
  [.acquire, .probe, .deviceOp, .deviceOp, .deviceOp, .deviceOp, .deviceOp, .deviceOp, .release]

/-- Trace of `_sign` (the device half of `sign`): lock, probe, `get_key` for
the private key, the public-key fetch when `verify_signature` is set, the
device `sign`, and the device `verify` when `verify_signature` is set. -/
def _sign_trace (verify_signature : Bool) : List Event :=
  [Event.acquire, Event.probe, Event.deviceOp]
    ++ (if verify_signature then [Event.deviceOp] else [])
    ++ [Event.deviceOp]
    ++ (if verify_signature then [Event.deviceOp] else [])
    ++ [Event.release]

/-- Trace of `verify` (local path): lock, probe, `_get_pub_key`, device
`verify`. -/
def verify_trace : List Event :=
  [.acquire, .probe, .deviceOp, .deviceOp, .release]

/-- Trace of `get_session`: lock, probe, return the session object. -/
def get_session_trace : List Event :=
  [.acquire, .probe, .release]

/-- A trace is a well-formed critical section: it acquires the lock first,
immediately runs the health probe, then performs only device work, and
releases the lock on exit. -/
def IsLockedProbeFirst (t : List Event) : Prop :=
  ∃ body, t = Event.acquire :: Event.probe :: body ++ [Event.release] ∧
    ∀ e ∈ body, e = Event.deviceOp

/-- Global configuration: who holds `self.lock`, and the remaining trace of
every logical task. -/
structure Config where
  lockOwner : Option Nat
  tasks : Nat → List Event

/-- Replace the remaining trace of task `i`. -/
def updateTask (tasks : Nat → List Event) (i : Nat) (t : List Event) :
    Nat → List Event :=
  fun j => if j = i then t else tasks j

/-- Interleaving semantics: a task may consume the head event of its trace.
`acquire` blocks until the lock is free and takes it; `release` returns it;
other events leave the lock alone. -/
inductive Step : Config → Config → Prop where
  | acq (cfg : Config) (i : Nat) (rest : List Event)
      (htask : cfg.tasks i = Event.acquire :: rest)
      (hfree : cfg.lockOwner = none) :
      Step cfg ⟨some i, updateTask cfg.tasks i rest⟩
  | rel (cfg : Config) (i : Nat) (rest : List Event)
      (htask : cfg.tasks i = Event.release :: rest) :
      Step cfg ⟨none, updateTask cfg.tasks i rest⟩
  | plain (cfg : Config) (i : Nat) (e : Event) (rest : List Event)
      (htask : cfg.tasks i = e :: rest)
      (hacq : e ≠ Event.acquire) (hrel : e ≠ Event.release) :
      Step cfg ⟨cfg.lockOwner, updateTask cfg.tasks i rest⟩

/-- A task that is not inside the critical section: it has not yet acquired
the lock (full well-formed trace ahead) or it is finished. -/
def Idle (t : List Event) : Prop :=
  IsLockedProbeFirst t ∨ t = []

/-- A task inside its critical section: everything before the final
`release` is probe or device work. -/
def InCritical (t : List Event) : Prop :=
  ∃ s, t = s ++ [Event.release] ∧ ∀ e ∈ s, e = Event.probe ∨ e = Event.deviceOp

/-- The mutual-exclusion invariant: when the lock is free every task is
idle; when task `i` holds it, `i` is inside its critical section and all
other tasks are idle. -/
def Inv (cfg : Config) : Prop :=
  (cfg.lockOwner = none → ∀ j, Idle (cfg.tasks j)) ∧
  (∀ i, cfg.lockOwner = some i →
    InCritical (cfg.tasks i) ∧ ∀ j, j ≠ i → Idle (cfg.tasks j))

/-- A task about to touch the device: its next event is the health probe or
a device call. -/
def TouchingDevice (t : List Event) : Prop :=
  ∃ rest, t = Event.probe :: rest ∨ t = Event.deviceOp :: rest

/-- A task of the system: it is running one of the device-touching
operations of `PKCS11Session`, or it is finished. -/
def OpTask (t : List Event) : Prop :=
  t ∈ [create_keypair_trace, import_keypair_trace, delete_keypair_trace,
       public_key_data_trace, import_certificate_trace, export_certificate_trace,
       delete_certificate_trace, key_labels_trace, verify_trace, get_session_trace]
    ∨ (∃ v, t = _sign_trace v) ∨ t = []

end PKCS11

namespace RootCA

/-! ### CSR TBS builder (`root_ca.py`) -/

/-- The extension payloads used by the CSR builder: `BasicConstraints` with
its `ca` flag, and `KeyUsage` with its bit string (left-to-right bits
0 = digitalSignature, 5 = keyCertSign, 6 = cRLSign). -/
inductive ExtnValue where
  | basicConstraints (ca : Bool)
  | keyUsage (bits : List Bool)
  deriving DecidableEq, Repr

/-- An `asn1_x509.Extension`: OID, critical flag, value. -/
structure Extension where
  extn_id : String
  critical : Bool
  extn_value : ExtnValue
  deriving DecidableEq, Repr

/-- An `asn1_csr.CRIAttribute`: attribute OID and its `SetOfExtensions`
value, a set of `Extensions` lists. -/
structure CRIAttribute where
  type : String
  values : List (List Extension)
  deriving DecidableEq, Repr

/-- An `asn1_csr.CertificationRequestInfo` under construction. asn1crypto
fields start unset; the subject is the built name dict and the SPKI is kept
as its encoded bytes. -/
structure CertificationRequestInfo where
  version : Option Nat := none
  subject : Option (List (String × String)) := none
  subject_pk_info : Option (List Nat) := none
  attributes : List CRIAttribute := []
  deriving DecidableEq, Repr

/-- `_set_tbs_version`: `tbs["version"] = 0`. -/
def _set_tbs_version (tbs : CertificationRequestInfo) : CertificationRequestInfo :=
  { tbs with version := some 0 }

/-- `_set_tbs_subject`: `tbs["subject"] = Name().build(subject_name)`. -/
def _set_tbs_subject (tbs : CertificationRequestInfo)
    (subject_name : List (String × String)) : CertificationRequestInfo :=
  { tbs with subject := some subject_name }

/-- `_set_tbs_subject_pk_info`: `tbs["subject_pk_info"] = pk_info`. -/
def _set_tbs_subject_pk_info (tbs : CertificationRequestInfo)
    (pk_info : List Nat) : CertificationRequestInfo :=
  { tbs with subject_pk_info := some pk_info }

/-- The source's `KeyUsage(('100001100',))` bit string, bits left to right. -/
def keyUsageBits : List Bool :=
  "100001100".toList.map (fun c => c = '1')

/-- `_set_tbs_basic_constraints`: build a critical `2.5.29.19` extension with
`ca = True`, wrap it in an extension-request attribute (`1.2.840.113549.1.9.14`)
and append it to the attribute list (creating the list when empty). -/
def _set_tbs_basic_constraints (tbs : CertificationRequestInfo) :
    CertificationRequestInfo :=
  let b_c := ExtnValue.basicConstraints true
  let ext : Extension := ⟨"2.5.29.19", true, b_c⟩
  let exts : List Extension := [ext]
  let ses : List (List Extension) := [exts]
  let cria : CRIAttribute := ⟨"1.2.840.113549.1.9.14", ses⟩
  if tbs.attributes.length = 0 then { tbs with attributes := [cria] }
  else { tbs with attributes := tbs.attributes ++ [cria] }

/-- `_set_tbs_key_usage`: build a critical `2.5.29.15` extension with the
`'100001100'` key-usage bits, wrap it in an extension-request attribute and
append it to the attribute list (creating the list when empty). -/
def _set_tbs_key_usage (tbs : CertificationRequestInfo) :
    CertificationRequestInfo :=
  let k_u := ExtnValue.keyUsage keyUsageBits
  let ext : Extension := ⟨"2.5.29.15", true, k_u⟩
  let exts : List Extension := [ext]
  let ses : List (List Extension) := [exts]
  let cria : CRIAttribute := ⟨"1.2.840.113549.1.9.14", ses⟩
  if tbs.attributes.length = 0 then { tbs with attributes := [cria] }
  else { tbs with attributes := tbs.attributes ++ [cria] }

/-- `_create_tbs`: version, subject, SPKI, basic constraints, key usage. -/
def _create_tbs (subject_name : List (String × String)) (pk_info : List Nat) :
    CertificationRequestInfo :=
  let tbs : CertificationRequestInfo := {}
  let tbs := _set_tbs_version tbs
  let tbs := _set_tbs_subject tbs subject_name
  let tbs := _set_tbs_subject_pk_info tbs pk_info
  let tbs := _set_tbs_basic_constraints tbs
  let tbs := _set_tbs_key_usage tbs
  tbs

end RootCA

namespace OCSP

/-! ### OCSP builders and data extractor

The module `ocsp` itself is not among the provided sources; only its test
suite (`tests/test_ocsp.py`) is. The definitions in this namespace are
modelled from the spec, as their doc comments state. -/

/-- Errors raised by the OCSP builders: `ValueError` (invalid argument) and
the library's `DuplicateExtensionException`. -/
inductive OCSPError where
  | ValueError
  | DuplicateExtensionException
  deriving DecidableEq, Repr

/-- The OID of the OCSP nonce extension. -/
def nonceOID : String := "1.3.6.1.5.5.7.48.1.2"

/-- An `asn1_ocsp.ResponseDataExtension`: extension OID and value bytes. -/
structure RDExtension where
  extn_id : String
  extn_value : List Nat
  deriving DecidableEq, Repr

/-- Modelled from the spec: the response builder's extension validation in
the missing module `ocsp` — a nonce extension value must not exceed 32 bytes
or the call fails with an invalid-argument error, and duplicate extension
identifiers within the supplied set fail with `DuplicateExtensionException`. -/
def check_extensions (exts : List RDExtension) : Except OCSPError Unit :=
  if ¬ (exts.map (fun e => e.extn_id)).Nodup then
    .error .DuplicateExtensionException
  else if exts.any (fun e => e.extn_id = nonceOID && 32 < e.extn_value.length) then
    .error .ValueError
  else
    .ok ()

/-- A `SingleResponse` supplied to the response builder: certificate serial
and its status string. -/
structure SingleResponseM where
  serial : Nat
  cert_status : String
  deriving DecidableEq, Repr

/-- The signed `BasicOCSPResponse` body: the per-certificate responses and
the response-level extensions that were embedded in the signed
`ResponseData`. -/
structure BasicOCSPResponse where
  responses : List SingleResponseM
  response_extensions : List RDExtension
  deriving DecidableEq, Repr

/-- An `OCSPResponse`: status code, and the optional `response_bytes` body. -/
structure OCSPResponseM where
  response_status : Nat
  response_bytes : Option BasicOCSPResponse
  deriving DecidableEq, Repr

/-- Modelled from the spec: the OCSP response builder `response` of the
missing module `ocsp`. Status codes outside `{0,1,2,3,5,6}` fail with an
invalid-argument error; a non-zero status yields a response with no body
regardless of other inputs; a zero status validates the supplied extensions
(fail fast, before signing) and then builds and signs the body. The second
component records whether signing was performed. -/
def response (key_label : String) (name_dict : List (String × String))
    (single_responses : List SingleResponseM) (status_code : Nat)
    (extra_extensions : List RDExtension) :
    Except OCSPError OCSPResponseM × Bool :=
  if status_code ∈ [0, 1, 2, 3, 5, 6] then
    if status_code ≠ 0 then
      (.ok ⟨status_code, none⟩, false)
    else
      match check_extensions extra_extensions with
      | .error e => (.error e, false)
      | .ok _ => (.ok ⟨0, some ⟨single_responses, extra_extensions⟩⟩, true)
  else
    (.error .ValueError, false)

/-- A certificate extension as seen by `certificate_ocsp_data`: the
Authority-Key-Identifier extension with its key-identifier bytes, an
Authority-Information-Access extension carrying an OCSP access method and
its URL, or any other extension. -/
inductive CertExtensionM where
  | aki (key_identifier : List Nat)
  | aiaOcsp (url : String)
  | other (oid : String)
  deriving DecidableEq, Repr

/-- Whether an extension is the Authority-Key-Identifier extension. -/
def isAki : CertExtensionM → Bool
  | .aki _ => true
  | _ => false

/-- Whether an extension is an Authority-Information-Access extension with
an OCSP access method. -/
def isAiaOcsp : CertExtensionM → Bool
  | .aiaOcsp _ => true
  | _ => false

/-- A parsed certificate as consumed by `certificate_ocsp_data`: the encoded
issuer name, the serial number, and the extension list. -/
structure CertificateM where
  issuer_name_encoded : List Nat
  serial : Nat
  extensions : List CertExtensionM
  deriving DecidableEq, Repr

/-- Modelled from the spec: `certificate_ocsp_data` of the missing module
`ocsp`. It requires exactly one Authority-Key-Identifier extension and
exactly one AIA extension with an OCSP access method; absence or duplication
of either fails with `DuplicateExtensionException`. On success it returns
the SHA-1 hash of the issuer name's encoded bytes, the AKI extension's
key-identifier field read verbatim, the serial number read verbatim, and the
OCSP URL. `sha1` stands for the external hash function. -/
def certificate_ocsp_data (sha1 : List Nat → List Nat) (cert : CertificateM) :
    Except OCSPError (List Nat × List Nat × Nat × String) :=
  match cert.extensions.filter isAki with
  | [.aki kid] =>
      match cert.extensions.filter isAiaOcsp with
      | [.aiaOcsp url] =>
          .ok (sha1 cert.issuer_name_encoded, kid, cert.serial, url)
      | _ => .error .DuplicateExtensionException
  | _ => .error .DuplicateExtensionException

end OCSP

/-! ## Theorems -/

namespace PKCS11

theorem isLockedProbeFirst_create_keypair :
    IsLockedProbeFirst create_keypair_trace :=
  ⟨[Event.deviceOp, Event.deviceOp], rfl, by decide⟩

theorem isLockedProbeFirst_import_keypair :
    IsLockedProbeFirst import_keypair_trace :=
  ⟨[Event.deviceOp, Event.deviceOp, Event.deviceOp], rfl, by decide⟩

theorem isLockedProbeFirst_delete_keypair :
    IsLockedProbeFirst delete_keypair_trace :=
  ⟨[Event.deviceOp, Event.deviceOp, Event.deviceOp, Event.deviceOp], rfl, by decide⟩

theorem isLockedProbeFirst_public_key_data :
    IsLockedProbeFirst public_key_data_trace :=
  ⟨[Event.deviceOp], rfl, by decide⟩

theorem isLockedProbeFirst_import_certificate :
    IsLockedProbeFirst import_certificate_trace :=
  ⟨[Event.deviceOp, Event.deviceOp], rfl, by decide⟩

theorem isLockedProbeFirst_export_certificate :
    IsLockedProbeFirst export_certificate_trace :=
  ⟨[Event.deviceOp], rfl, by decide⟩

theorem isLockedProbeFirst_delete_certificate :
    IsLockedProbeFirst delete_certificate_trace :=
  ⟨[Event.deviceOp], rfl, by decide⟩

theorem isLockedProbeFirst_key_labels :
    IsLockedProbeFirst key_labels_trace :=
  ⟨List.replicate 6 Event.deviceOp, rfl, by decide⟩

theorem isLockedProbeFirst_verify :
    IsLockedProbeFirst verify_trace :=
  ⟨[Event.deviceOp, Event.deviceOp], rfl, by decide⟩

theorem isLockedProbeFirst_get_session :
    IsLockedProbeFirst get_session_trace :=
  ⟨[], rfl, by decide⟩

theorem isLockedProbeFirst_sign_trace (v : Bool) :
    IsLockedProbeFirst (_sign_trace v) := by
  cases v
  · exact ⟨[Event.deviceOp, Event.deviceOp], rfl, by decide⟩
  · exact ⟨[Event.deviceOp, Event.deviceOp, Event.deviceOp, Event.deviceOp], rfl,
      by decide⟩

theorem opTask_idle {t : List Event} (h : OpTask t) : Idle t := by
  rcases h with hmem | ⟨v, rfl⟩ | rfl
  · simp only [List.mem_cons, List.not_mem_nil, or_false] at hmem
    rcases hmem with rfl | rfl | rfl | rfl | rfl | rfl | rfl | rfl | rfl | rfl
    · exact Or.inl isLockedProbeFirst_create_keypair
    · exact Or.inl isLockedProbeFirst_import_keypair
    · exact Or.inl isLockedProbeFirst_delete_keypair
    · exact Or.inl isLockedProbeFirst_public_key_data
    · exact Or.inl isLockedProbeFirst_import_certificate
    · exact Or.inl isLockedProbeFirst_export_certificate
    · exact Or.inl isLockedProbeFirst_delete_certificate
    · exact Or.inl isLockedProbeFirst_key_labels
    · exact Or.inl isLockedProbeFirst_verify
    · exact Or.inl isLockedProbeFirst_get_session
  · exact Or.inl (isLockedProbeFirst_sign_trace v)
  · exact Or.inr rfl

theorem idle_not_touching {t : List Event} (hidle : Idle t)
    (htouch : TouchingDevice t) : False := by
  obtain ⟨rest, hrest⟩ := htouch
  rcases hidle with ⟨body, hbody, -⟩ | rfl
  · rcases hrest with h | h <;> rw [h] at hbody <;>
      exact Event.noConfusion (List.cons.injEq .. ▸ hbody).1
  · rcases hrest with h | h <;> exact List.noConfusion h

theorem inv_step {cfg cfg' : Config} (hinv : Inv cfg) (hstep : Step cfg cfg') :
    Inv cfg' := by
  obtain ⟨hnone, hsome⟩ := hinv
  cases hstep with
  | acq i rest htask hfree =>
      rcases hnone hfree i with ⟨body, hbody, hdev⟩ | hemp
      · rw [htask] at hbody
        injection hbody with _ hrest
        refine ⟨fun h => Option.noConfusion h, fun k hk => ?_⟩
        injection hk with hk
        subst hk
        refine ⟨⟨Event.probe :: body, ?_, ?_⟩, fun j hj => ?_⟩
        · show updateTask cfg.tasks i rest i = _
          simp only [updateTask, if_pos rfl]
          rw [hrest]; rfl
        · intro e he
          rcases List.mem_cons.mp he with rfl | he
          · exact Or.inl rfl
          · exact Or.inr (hdev e he)
        · show Idle (updateTask cfg.tasks i rest j)
          simp only [updateTask, if_neg hj]
          exact hnone hfree j
      · rw [htask] at hemp; exact List.noConfusion hemp
  | rel i rest htask =>
      cases h : cfg.lockOwner with
      | none =>
          exfalso
          rcases hnone h i with ⟨body, hbody, -⟩ | hemp
          · rw [htask] at hbody
            exact Event.noConfusion (List.cons.injEq .. ▸ hbody).1
          · rw [htask] at hemp; exact List.noConfusion hemp
      | some k =>
          obtain ⟨hcrit, hothers⟩ := hsome k h
          by_cases hik : i = k
          · subst hik
            obtain ⟨s, hs, hsall⟩ := hcrit
            rw [htask] at hs
            have hrest : rest = [] := by
              cases s with
              | nil => exact ((List.cons.injEq ..).mp hs).2
              | cons a s2 =>
                  have ha := ((List.cons.injEq ..).mp hs).1
                  rcases hsall a (List.mem_cons_self a s2) with h1 | h1 <;>
                    rw [h1] at ha <;> exact Event.noConfusion ha
            subst hrest
            refine ⟨fun _ j => ?_, fun m hm => Option.noConfusion hm⟩
            by_cases hji : j = i
            · subst hji
              show Idle (updateTask cfg.tasks j [] j)
              simp only [updateTask, if_pos rfl]
              exact Or.inr rfl
            · show Idle (updateTask cfg.tasks i [] j)
              simp only [updateTask, if_neg hji]
              exact hothers j hji
          · exfalso
            rcases hothers i hik with ⟨body, hbody, -⟩ | hemp
            · rw [htask] at hbody
              exact Event.noConfusion (List.cons.injEq .. ▸ hbody).1
            · rw [htask] at hemp; exact List.noConfusion hemp
  | plain i e rest htask hacq hrel =>
      cases h : cfg.lockOwner with
      | none =>
          exfalso
          rcases hnone h i with ⟨body, hbody, -⟩ | hemp
          · rw [htask] at hbody
            exact hacq ((List.cons.injEq ..).mp hbody).1
          · rw [htask] at hemp; exact List.noConfusion hemp
      | some k =>
          obtain ⟨hcrit, hothers⟩ := hsome k h
          by_cases hik : i = k
          · subst hik
            obtain ⟨s, hs, hsall⟩ := hcrit
            rw [htask] at hs
            cases s with
            | nil =>
                exact absurd ((List.cons.injEq ..).mp hs).1 hrel
            | cons a s2 =>
                obtain ⟨ha, hrest⟩ := (List.cons.injEq ..).mp hs
                refine ⟨fun hcontra => Option.noConfusion hcontra, fun m hm => ?_⟩
                injection hm with hm
                subst hm
                refine ⟨⟨s2, ?_, fun x hx => hsall x (List.mem_cons_of_mem a hx)⟩,
                  fun j hj => ?_⟩
                · show updateTask cfg.tasks i rest i = _
                  simp only [updateTask, if_pos rfl]
                  exact hrest
                · show Idle (updateTask cfg.tasks i rest j)
                  simp only [updateTask, if_neg hj]
                  exact hothers j hj
          · exfalso
            rcases hothers i hik with ⟨body, hbody, -⟩ | hemp
            · rw [htask] at hbody
              exact hacq ((List.cons.injEq ..).mp hbody).1
            · rw [htask] at hemp; exact List.noConfusion hemp

theorem inv_reachable {cfg cfg' : Config} (hinv : Inv cfg)
    (h : Relation.ReflTransGen Step cfg cfg') : Inv cfg' := by
  induction h with
  | refl => exact hinv
  | tail _ hstep ih => exact inv_step ih hstep

theorem touching_device_unique {cfg : Config} (hinv : Inv cfg) (i j : Nat)
    (hi : TouchingDevice (cfg.tasks i)) (hj : TouchingDevice (cfg.tasks j)) :
    i = j := by
  obtain ⟨hnone, hsome⟩ := hinv
  cases h : cfg.lockOwner with
  | none => exact absurd hi (fun hti => idle_not_touching (hnone h i) hti)
  | some k =>
      obtain ⟨-, hothers⟩ := hsome k h
      have hik : i = k := by
        by_contra hik
        exact idle_not_touching (hothers i hik) hi
      have hjk : j = k := by
        by_contra hjk
        exact idle_not_touching (hothers j hjk) hj
      rw [hik, hjk]

end PKCS11

namespace PKCS11

theorem attemptFails_iff (a : ProbeAttempt) :
    attemptFails a = true ↔ (TIMEOUT < a.duration ∨ a.status ≠ 0) := by
  simp [attemptFails]

theorem opTask_get_session : OpTask get_session_trace :=
  Or.inl (by decide)

end PKCS11

/-- C2: every device-touching operation of `PKCS11Session` (sign via `_sign`,
verify, create/import/delete keypair, import/export/delete certificate,
key_labels, public_key_data, get_session) has a trace that acquires the
single shared lock first, then runs the `healthy_session` probe, and only
then touches the device; and in the one-lock interleaving semantics, from
any configuration of such operations with the lock free, every reachable
configuration has at most one task about to touch the device. -/
theorem claim_C2_lock_probe_serialization :
    (PKCS11.IsLockedProbeFirst PKCS11.create_keypair_trace ∧
     PKCS11.IsLockedProbeFirst PKCS11.import_keypair_trace ∧
     PKCS11.IsLockedProbeFirst PKCS11.delete_keypair_trace ∧
     PKCS11.IsLockedProbeFirst PKCS11.public_key_data_trace ∧
     PKCS11.IsLockedProbeFirst PKCS11.import_certificate_trace ∧
     PKCS11.IsLockedProbeFirst PKCS11.export_certificate_trace ∧
     PKCS11.IsLockedProbeFirst PKCS11.delete_certificate_trace ∧
     PKCS11.IsLockedProbeFirst PKCS11.key_labels_trace ∧
     PKCS11.IsLockedProbeFirst PKCS11.verify_trace ∧
     PKCS11.IsLockedProbeFirst PKCS11.get_session_trace ∧
     (∀ v, PKCS11.IsLockedProbeFirst (PKCS11._sign_trace v))) ∧
    (∀ cfg cfg' : PKCS11.Config, cfg.lockOwner = none →
       (∀ t, PKCS11.OpTask (cfg.tasks t)) →
       Relation.ReflTransGen PKCS11.Step cfg cfg' →
       ∀ i j, PKCS11.TouchingDevice (cfg'.tasks i) →
         PKCS11.TouchingDevice (cfg'.tasks j) → i = j) := by
  constructor
  · exact ⟨PKCS11.isLockedProbeFirst_create_keypair,
      PKCS11.isLockedProbeFirst_import_keypair,
      PKCS11.isLockedProbeFirst_delete_keypair,
      PKCS11.isLockedProbeFirst_public_key_data,
      PKCS11.isLockedProbeFirst_import_certificate,
      PKCS11.isLockedProbeFirst_export_certificate,
      PKCS11.isLockedProbeFirst_delete_certificate,
      PKCS11.isLockedProbeFirst_key_labels,
      PKCS11.isLockedProbeFirst_verify,
      PKCS11.isLockedProbeFirst_get_session,
      PKCS11.isLockedProbeFirst_sign_trace⟩
  · intro cfg cfg' hfree htasks hreach i j hi hj
    have hinv : PKCS11.Inv cfg := by
      refine ⟨fun _ t => PKCS11.opTask_idle (htasks t), fun k hk => ?_⟩
      rw [hfree] at hk
      exact Option.noConfusion hk
    exact PKCS11.touching_device_unique (PKCS11.inv_reachable hinv hreach) i j hi hj

/-- Witness for C2: the trace shape holds for `create_keypair`, and the
mutual-exclusion part applies to the configuration where every task runs
`get_session` and task 0 has just acquired the lock. -/
theorem claim_C2_lock_probe_serialization_witness :
    PKCS11.IsLockedProbeFirst PKCS11.create_keypair_trace ∧ (0 : Nat) = 0 := by
  constructor
  · exact claim_C2_lock_probe_serialization.1.1
  · exact claim_C2_lock_probe_serialization.2
      ⟨none, fun _ => PKCS11.get_session_trace⟩
      ⟨some 0, PKCS11.updateTask (fun _ => PKCS11.get_session_trace) 0
        [PKCS11.Event.probe, PKCS11.Event.release]⟩
      rfl
      (fun _ => PKCS11.opTask_get_session)
      (Relation.ReflTransGen.single
        (PKCS11.Step.acq ⟨none, fun _ => PKCS11.get_session_trace⟩ 0
          [PKCS11.Event.probe, PKCS11.Event.release] rfl rfl))
      0 0
      ⟨[PKCS11.Event.release], Or.inl rfl⟩
      ⟨[PKCS11.Event.release], Or.inl rfl⟩

/-- C3: with session recreation enabled, every `healthy_session` invocation
joins each `_open_session` worker thread with the wall-clock budget
`TIMEOUT = 10`; when the first (unforced) attempt overruns its budget or
reports an unhealthy status, exactly one more attempt is started, with
`force=True`; when that second attempt also overruns or is unhealthy, the
call returns `PKCS11UnknownErrorException` instead of hanging or retrying,
and the caller never waits longer than two budgets. -/
theorem claim_C3_health_probe_budget (a1 a2 : PKCS11.ProbeAttempt) :
    PKCS11.TIMEOUT = 10 ∧
    (¬ (PKCS11.TIMEOUT < a1.duration ∨ a1.status ≠ 0) →
      PKCS11.healthy_session true a1 a2 =
        (.ok, [false], min a1.duration PKCS11.TIMEOUT)) ∧
    ((PKCS11.TIMEOUT < a1.duration ∨ a1.status ≠ 0) →
      (PKCS11.healthy_session true a1 a2).2.1 = [false, true]) ∧
    ((PKCS11.TIMEOUT < a1.duration ∨ a1.status ≠ 0) →
     (PKCS11.TIMEOUT < a2.duration ∨ a2.status ≠ 0) →
      PKCS11.healthy_session true a1 a2 =
        (.unknownError, [false, true],
          min a1.duration PKCS11.TIMEOUT + min a2.duration PKCS11.TIMEOUT)) ∧
    (PKCS11.healthy_session true a1 a2).2.2 ≤ 2 * PKCS11.TIMEOUT := by
  have hiff1 := PKCS11.attemptFails_iff a1
  have hiff2 := PKCS11.attemptFails_iff a2
  refine ⟨rfl, ?_, ?_, ?_, ?_⟩
  · intro h
    have h1 : PKCS11.attemptFails a1 = false := by
      cases hv : PKCS11.attemptFails a1
      · rfl
      · exact absurd (hiff1.mp hv) h
    simp [PKCS11.healthy_session, h1]
  · intro h
    have h1 : PKCS11.attemptFails a1 = true := hiff1.mpr h
    by_cases h2 : PKCS11.attemptFails a2 = true <;>
      simp [PKCS11.healthy_session, h1, h2]
  · intro h g
    have h1 : PKCS11.attemptFails a1 = true := hiff1.mpr h
    have h2 : PKCS11.attemptFails a2 = true := hiff2.mpr g
    simp [PKCS11.healthy_session, h1, h2]
  · have b1 : min a1.duration PKCS11.TIMEOUT ≤ PKCS11.TIMEOUT :=
      Nat.min_le_right _ _
    have b2 : min a2.duration PKCS11.TIMEOUT ≤ PKCS11.TIMEOUT :=
      Nat.min_le_right _ _
    cases hv : PKCS11.attemptFails a1 <;> cases hw : PKCS11.attemptFails a2 <;>
      simp [PKCS11.healthy_session, hv, hw] <;> omega

/-- Witness for C3: an over-budget first attempt and an over-budget forced
second attempt produce the unknown-error outcome after two bounded waits. -/
theorem claim_C3_health_probe_budget_witness :
    PKCS11.healthy_session true ⟨11, 9⟩ ⟨20, 0⟩ =
      (.unknownError, [false, true], 20) :=
  (claim_C3_health_probe_budget ⟨11, 9⟩ ⟨20, 0⟩).2.2.2.1
    (Or.inl (by decide)) (Or.inl (by decide))

/-- C5: `sign` selects the mechanism and preprocessing by key type —
Ed25519/Ed448 use raw EdDSA on the unhashed data; the three NIST curves
pre-hash with SHA-256/384/512 respectively, sign the digest with ECDSA and
convert the fixed-width R‖S device output to ASN.1 DER; RSA-2048 uses
RSA-PKCS1 with SHA-256 and RSA-4096 uses RSA-PKCS1 with SHA-512. -/
theorem claim_C5_sign_mechanism_selection :
    PKCS11.sign_route .ED25519 = ⟨.EDDSA, .raw, .deviceNative⟩ ∧
    PKCS11.sign_route .ED448 = ⟨.EDDSA, .raw, .deviceNative⟩ ∧
    PKCS11.sign_route .SECP256r1 =
      ⟨.ECDSA, .digest .sha256, .convertedRS "secp256r1"⟩ ∧
    PKCS11.sign_route .SECP384r1 =
      ⟨.ECDSA, .digest .sha384, .convertedRS "secp384r1"⟩ ∧
    PKCS11.sign_route .SECP521r1 =
      ⟨.ECDSA, .digest .sha512, .convertedRS "secp521r1"⟩ ∧
    PKCS11.sign_route .RSA2048 = ⟨.SHA256_RSA_PKCS, .raw, .deviceNative⟩ ∧
    PKCS11.sign_route .RSA4096 = ⟨.SHA512_RSA_PKCS, .raw, .deviceNative⟩ := by
  refine ⟨rfl, rfl, rfl, rfl, rfl, rfl, rfl⟩

namespace PKCS11

theorem _public_key_data_eq (sha1 : List Nat → List Nat)
    (armor : List Nat → String) (key_pub : PKCS11Key) (key_type : KEYTYPES) :
    _public_key_data sha1 armor key_pub key_type =
      (armor key_pub.encoded, sha1 key_pub.encoded) := by
  unfold _public_key_data
  split
  · rfl
  · split <;> rfl

theorem get_key_noSuchKey_filter {st : DeviceState} {key_label : String}
    {key_type : KEYTYPES} {oc : ObjectClass}
    (h : get_key st key_label key_type oc = .error .NoSuchKey) :
    st.keys.filter (keyMatches key_label key_type oc) = [] := by
  unfold get_key at h
  cases hl : st.keys.filter (keyMatches key_label key_type oc) with
  | nil => rfl
  | cons a tl =>
      cases tl with
      | nil => rw [hl] at h; simp at h
      | cons b tl2 => rw [hl] at h; simp at h

theorem get_key_ok_filter {st : DeviceState} {key_label : String}
    {key_type : KEYTYPES} {oc : ObjectClass} {k : PKCS11Key}
    (h : get_key st key_label key_type oc = .ok k) :
    st.keys.filter (keyMatches key_label key_type oc) = [k] := by
  unfold get_key at h
  cases hl : st.keys.filter (keyMatches key_label key_type oc) with
  | nil => rw [hl] at h; simp at h
  | cons a tl =>
      cases tl with
      | nil =>
          rw [hl] at h
          simp only [Except.ok.injEq] at h
          rw [h]
      | cons b tl2 => rw [hl] at h; simp at h

end PKCS11

/-- C1: when a public key already exists on the device under
`(key_label, key_type)`, `create_keypair` raises `MultipleObjectsReturned`
and leaves the device state unchanged (no overwrite); the same label under a
different key type with no existing key succeeds independently. -/
theorem claim_C1_create_keypair_duplicate
    (sha1 : List Nat → List Nat) (armor : List Nat → String)
    (st : PKCS11.DeviceState) (key_label : String)
    (T T' : PKCS11.KEYTYPES) (fresh fresh' : List Nat) (k : PKCS11.PKCS11Key)
    (hdup : PKCS11._get_pub_key st key_label T = .ok k)
    (hnew : PKCS11._get_pub_key st key_label T' = .error .NoSuchKey) :
    PKCS11.create_keypair sha1 armor st key_label T fresh =
      (.error .MultipleObjectsReturned, st) ∧
    (PKCS11.create_keypair sha1 armor st key_label T' fresh').1 =
      .ok (armor fresh', sha1 fresh') := by
  constructor
  · unfold PKCS11.create_keypair
    rw [hdup]
  · unfold PKCS11.create_keypair
    rw [hnew]
    simp [PKCS11.generate_keypair, PKCS11._public_key_data_eq]

/-- Witness for C1: a device holding an RSA-2048 public key under label
`ca1` rejects a second RSA-2048 keypair with that label and leaves the
state intact, while an Ed25519 keypair under the same label succeeds. -/
theorem claim_C1_create_keypair_duplicate_witness :
    PKCS11.create_keypair (fun b => b) (fun _ => "pem")
        ⟨[⟨"ca1", .RSA2048, .PUBLIC_KEY, [1]⟩]⟩ "ca1" .RSA2048 [2] =
      (.error .MultipleObjectsReturned,
        ⟨[⟨"ca1", .RSA2048, .PUBLIC_KEY, [1]⟩]⟩) ∧
    (PKCS11.create_keypair (fun b => b) (fun _ => "pem")
        ⟨[⟨"ca1", .RSA2048, .PUBLIC_KEY, [1]⟩]⟩ "ca1" .ED25519 [2]).1 =
      .ok ("pem", [2]) :=
  claim_C1_create_keypair_duplicate (fun b => b) (fun _ => "pem")
    ⟨[⟨"ca1", .RSA2048, .PUBLIC_KEY, [1]⟩]⟩ "ca1" .RSA2048 .ED25519 [2] [2]
    ⟨"ca1", .RSA2048, .PUBLIC_KEY, [1]⟩ rfl rfl

/-- C4: the key identifier returned by `create_keypair` is the SHA-1 digest
of the keypair's encoded public-key bytes, and `public_key_data` on the
resulting state returns the same PEM and the same SHA-1 identifier for that
keypair. -/
theorem claim_C4_key_identifier_is_sha1
    (sha1 : List Nat → List Nat) (armor : List Nat → String)
    (st st' : PKCS11.DeviceState) (key_label : String)
    (key_type : PKCS11.KEYTYPES) (fresh : List Nat) (pem : String)
    (kid : List Nat)
    (h : PKCS11.create_keypair sha1 armor st key_label key_type fresh =
      (.ok (pem, kid), st')) :
    kid = sha1 fresh ∧
    PKCS11.public_key_data sha1 armor st' key_label key_type =
      .ok (pem, sha1 fresh) := by
  unfold PKCS11.create_keypair at h
  cases hg : PKCS11._get_pub_key st key_label key_type with
  | ok kex => rw [hg] at h; simp at h
  | error e =>
      cases e with
      | NoSuchKey =>
          rw [hg] at h
          simp only [PKCS11.generate_keypair, PKCS11._public_key_data_eq,
            Prod.mk.injEq, Except.ok.injEq] at h
          obtain ⟨⟨hpem, hkid⟩, hst⟩ := h
          have hfilter : st'.keys.filter
              (PKCS11.keyMatches key_label key_type .PUBLIC_KEY) =
              [⟨key_label, key_type, .PUBLIC_KEY, fresh⟩] := by
            rw [← hst]
            simp [PKCS11.keyMatches,
              PKCS11.get_key_noSuchKey_filter hg]
          constructor
          · exact hkid.symm
          · unfold PKCS11.public_key_data PKCS11._get_pub_key PKCS11.get_key
            rw [hfilter]
            simp only [PKCS11._public_key_data_eq]
            rw [hpem]
      | MultipleObjectsReturned => rw [hg] at h; simp at h
      | GeneralError => rw [hg] at h; simp at h
      | SignatureInvalid => rw [hg] at h; simp at h

/-- Witness for C4: creating an Ed25519 keypair on an empty device returns
SHA-1 of the encoded public key, and `public_key_data` agrees. -/
theorem claim_C4_key_identifier_is_sha1_witness :
    [9, 9] = (fun b => 9 :: b) [9] ∧
    PKCS11.public_key_data (fun b => 9 :: b) (fun _ => "pem")
        ⟨[⟨"k4", .ED25519, .PUBLIC_KEY, [9]⟩,
          ⟨"k4", .ED25519, .PRIVATE_KEY, [9]⟩]⟩ "k4" .ED25519 =
      .ok ("pem", (fun b => 9 :: b) [9]) :=
  claim_C4_key_identifier_is_sha1 (fun b => 9 :: b) (fun _ => "pem")
    ⟨[]⟩ ⟨[⟨"k4", .ED25519, .PUBLIC_KEY, [9]⟩,
      ⟨"k4", .ED25519, .PRIVATE_KEY, [9]⟩]⟩ "k4" .ED25519 [9] "pem" [9, 9] rfl

/-- C10: `delete_keypair` attempts the private-key destroy in the `finally`
block even when the public-key destroy fails; with the public key absent the
call raises `NoSuchKey`, yet the private key is destroyed, so the device
state is mutated on error — the deletion is not atomic. -/
theorem claim_C10_delete_keypair_not_atomic
    (st : PKCS11.DeviceState) (key_label : String)
    (key_type : PKCS11.KEYTYPES) (kpriv : PKCS11.PKCS11Key)
    (hpub : PKCS11.get_key st key_label key_type .PUBLIC_KEY =
      .error .NoSuchKey)
    (hpriv : PKCS11.get_key st key_label key_type .PRIVATE_KEY = .ok kpriv) :
    PKCS11.delete_keypair st key_label key_type =
      (.error .NoSuchKey, PKCS11.destroyObject st kpriv) ∧
    PKCS11.destroyObject st kpriv ≠ st := by
  constructor
  · unfold PKCS11.delete_keypair
    simp only [hpub, hpriv]
  · have hk : kpriv ∈ st.keys := by
      have hf := PKCS11.get_key_ok_filter hpriv
      have hmem : kpriv ∈ st.keys.filter
          (PKCS11.keyMatches key_label key_type .PRIVATE_KEY) := by
        rw [hf]; exact List.mem_singleton.mpr rfl
      exact List.mem_of_mem_filter hmem
    intro hcontra
    have hlen := congrArg (fun s => s.keys.length) hcontra
    simp only [PKCS11.destroyObject] at hlen
    rw [List.length_erase_of_mem hk] at hlen
    have hpos : 0 < st.keys.length := List.length_pos_of_mem hk
    omega

/-- Witness for C10: a device holding only the private key of `d1` reports
`NoSuchKey` from `delete_keypair` but still loses the private key. -/
theorem claim_C10_delete_keypair_not_atomic_witness :
    PKCS11.delete_keypair ⟨[⟨"d1", .ED25519, .PRIVATE_KEY, []⟩]⟩
        "d1" .ED25519 =
      (.error .NoSuchKey,
        PKCS11.destroyObject ⟨[⟨"d1", .ED25519, .PRIVATE_KEY, []⟩]⟩
          ⟨"d1", .ED25519, .PRIVATE_KEY, []⟩) ∧
    PKCS11.destroyObject ⟨[⟨"d1", .ED25519, .PRIVATE_KEY, []⟩]⟩
        ⟨"d1", .ED25519, .PRIVATE_KEY, []⟩ ≠
      ⟨[⟨"d1", .ED25519, .PRIVATE_KEY, []⟩]⟩ :=
  claim_C10_delete_keypair_not_atomic ⟨[⟨"d1", .ED25519, .PRIVATE_KEY, []⟩]⟩
    "d1" .ED25519 ⟨"d1", .ED25519, .PRIVATE_KEY, []⟩ rfl rfl

namespace OCSP

theorem filter_isAki_shape (l : List CertExtensionM) :
    ∀ x ∈ l.filter isAki, ∃ kid, x = CertExtensionM.aki kid := by
  intro x hx
  have hmem := List.of_mem_filter hx
  cases x with
  | aki kid => exact ⟨kid, rfl⟩
  | aiaOcsp url => simp [isAki] at hmem
  | other oid => simp [isAki] at hmem

theorem filter_isAiaOcsp_shape (l : List CertExtensionM) :
    ∀ x ∈ l.filter isAiaOcsp, ∃ url, x = CertExtensionM.aiaOcsp url := by
  intro x hx
  have hmem := List.of_mem_filter hx
  cases x with
  | aki kid => simp [isAiaOcsp] at hmem
  | aiaOcsp url => exact ⟨url, rfl⟩
  | other oid => simp [isAiaOcsp] at hmem

end OCSP

/-- C6: the OCSP response builder rejects every status code outside
`{0,1,2,3,5,6}` (including the reserved code 4 and out-of-range codes such
as 99) with an invalid-argument error, and for every status in
`{1,2,3,5,6}` it produces a response whose `response_bytes` body is absent
regardless of the supplied single responses and extensions, with no signing
performed. -/
theorem claim_C6_response_status_codes
    (key_label : String) (name_dict : List (String × String))
    (single_responses : List OCSP.SingleResponseM)
    (extra_extensions : List OCSP.RDExtension) :
    (∀ status_code, status_code ∉ [0, 1, 2, 3, 5, 6] →
      OCSP.response key_label name_dict single_responses status_code
        extra_extensions = (.error .ValueError, false)) ∧
    (∀ status_code, status_code ∈ [1, 2, 3, 5, 6] →
      OCSP.response key_label name_dict single_responses status_code
        extra_extensions = (.ok ⟨status_code, none⟩, false)) := by
  constructor
  · intro s hs
    simp [OCSP.response, hs]
  · intro s hs
    fin_cases hs <;> rfl

/-- Witness for C6: status 4 is rejected and status 1 yields a body-less
response even with a nonempty single-response list. -/
theorem claim_C6_response_status_codes_witness :
    OCSP.response "k" [] [⟨7, "good"⟩] 4 [] = (.error .ValueError, false) ∧
    OCSP.response "k" [] [⟨7, "good"⟩] 99 [] = (.error .ValueError, false) ∧
    OCSP.response "k" [] [⟨7, "good"⟩] 1 [] = (.ok ⟨1, none⟩, false) :=
  ⟨(claim_C6_response_status_codes "k" [] [⟨7, "good"⟩] []).1 4 (by decide),
   (claim_C6_response_status_codes "k" [] [⟨7, "good"⟩] []).1 99 (by decide),
   (claim_C6_response_status_codes "k" [] [⟨7, "good"⟩] []).2 1 (by decide)⟩

/-- C7: on the successful-status path, duplicate extension identifiers in
the supplied set fail with `DuplicateExtensionException` before any signing
is performed; a nonce extension value longer than 32 bytes fails with an
invalid-argument error, also before signing; and with distinct identifiers
and no oversized nonce the call succeeds and signs. -/
theorem claim_C7_response_extension_validation
    (key_label : String) (name_dict : List (String × String))
    (single_responses : List OCSP.SingleResponseM)
    (extra_extensions : List OCSP.RDExtension) :
    (¬ (extra_extensions.map (fun e => e.extn_id)).Nodup →
      OCSP.response key_label name_dict single_responses 0 extra_extensions =
        (.error .DuplicateExtensionException, false)) ∧
    ((extra_extensions.map (fun e => e.extn_id)).Nodup →
     (∃ e ∈ extra_extensions,
        e.extn_id = OCSP.nonceOID ∧ 32 < e.extn_value.length) →
      OCSP.response key_label name_dict single_responses 0 extra_extensions =
        (.error .ValueError, false)) ∧
    ((extra_extensions.map (fun e => e.extn_id)).Nodup →
     (∀ e ∈ extra_extensions,
        ¬ (e.extn_id = OCSP.nonceOID ∧ 32 < e.extn_value.length)) →
      OCSP.response key_label name_dict single_responses 0 extra_extensions =
        (.ok ⟨0, some ⟨single_responses, extra_extensions⟩⟩, true)) := by
  refine ⟨?_, ?_, ?_⟩
  · intro h
    simp [OCSP.response, OCSP.check_extensions, h]
  · intro h1 h2
    have hany : extra_extensions.any
        (fun e => e.extn_id = OCSP.nonceOID && 32 < e.extn_value.length) =
        true := by
      rcases h2 with ⟨e, he, hid, hlen⟩
      refine List.any_eq_true.mpr ⟨e, he, ?_⟩
      simp [hid, hlen]
    simp [OCSP.response, OCSP.check_extensions, h1, hany]
  · intro h1 h2
    have hany : extra_extensions.any
        (fun e => e.extn_id = OCSP.nonceOID && 32 < e.extn_value.length) =
        false := by
      cases hx : extra_extensions.any
          (fun e => e.extn_id = OCSP.nonceOID && 32 < e.extn_value.length)
      · rfl
      · exfalso
        rcases List.any_eq_true.mp hx with ⟨e, he, hfe⟩
        rw [Bool.and_eq_true] at hfe
        exact h2 e he ⟨by simpa using hfe.1, by simpa using hfe.2⟩
    simp [OCSP.response, OCSP.check_extensions, h1, hany]

/-- Witness for C7: two 32-byte nonce extensions with the same identifier
fail with the duplicate-extension error, a single 33-byte nonce fails with
the invalid-argument error, and a single 32-byte nonce succeeds and signs. -/
theorem claim_C7_response_extension_validation_witness :
    OCSP.response "k" [] [] 0
        [⟨OCSP.nonceOID, List.replicate 32 0⟩,
         ⟨OCSP.nonceOID, List.replicate 32 0⟩] =
      (.error .DuplicateExtensionException, false) ∧
    OCSP.response "k" [] [] 0 [⟨OCSP.nonceOID, List.replicate 33 0⟩] =
      (.error .ValueError, false) ∧
    OCSP.response "k" [] [] 0 [⟨OCSP.nonceOID, List.replicate 32 0⟩] =
      (.ok ⟨0, some ⟨[], [⟨OCSP.nonceOID, List.replicate 32 0⟩]⟩⟩, true) :=
  ⟨(claim_C7_response_extension_validation "k" [] []
      [⟨OCSP.nonceOID, List.replicate 32 0⟩,
       ⟨OCSP.nonceOID, List.replicate 32 0⟩]).1 (by decide),
   (claim_C7_response_extension_validation "k" [] []
      [⟨OCSP.nonceOID, List.replicate 33 0⟩]).2.1 (by decide)
      ⟨⟨OCSP.nonceOID, List.replicate 33 0⟩, by decide, rfl, by decide⟩,
   (claim_C7_response_extension_validation "k" [] []
      [⟨OCSP.nonceOID, List.replicate 32 0⟩]).2.2 (by decide)
      (by decide)⟩

/-- C8: `certificate_ocsp_data` fails with `DuplicateExtensionException`
unless the certificate carries exactly one Authority-Key-Identifier
extension and exactly one AIA extension with an OCSP access method; when
both occur exactly once it returns the 20-byte SHA-1 hash of the issuer
name's encoded bytes, the AKI key-identifier (20 bytes), and the serial
number read verbatim. -/
theorem claim_C8_certificate_ocsp_data
    (sha1 : List Nat → List Nat) (cert : OCSP.CertificateM)
    (h20 : ∀ b, (sha1 b).length = 20) :
    (((cert.extensions.filter OCSP.isAki).length ≠ 1 ∨
      (cert.extensions.filter OCSP.isAiaOcsp).length ≠ 1) →
      OCSP.certificate_ocsp_data sha1 cert =
        .error .DuplicateExtensionException) ∧
    (∀ kid url, cert.extensions.filter OCSP.isAki = [.aki kid] →
      cert.extensions.filter OCSP.isAiaOcsp = [.aiaOcsp url] →
      kid.length = 20 →
      OCSP.certificate_ocsp_data sha1 cert =
        .ok (sha1 cert.issuer_name_encoded, kid, cert.serial, url) ∧
      (sha1 cert.issuer_name_encoded).length = 20) := by
  constructor
  · intro h
    rcases hl1 : cert.extensions.filter OCSP.isAki with _ | ⟨a, _ | ⟨b, l2⟩⟩
    · simp [OCSP.certificate_ocsp_data, hl1]
    · obtain ⟨kid, rfl⟩ :=
        OCSP.filter_isAki_shape cert.extensions a
          (hl1 ▸ List.mem_singleton.mpr rfl)
      rcases hl2 : cert.extensions.filter OCSP.isAiaOcsp
        with _ | ⟨c, _ | ⟨d, m2⟩⟩
      · simp [OCSP.certificate_ocsp_data, hl1, hl2]
      · obtain ⟨url, rfl⟩ :=
          OCSP.filter_isAiaOcsp_shape cert.extensions c
            (hl2 ▸ List.mem_singleton.mpr rfl)
        exfalso
        rcases h with h | h
        · rw [hl1] at h; simp at h
        · rw [hl2] at h; simp at h
      · simp [OCSP.certificate_ocsp_data, hl1, hl2]
    · simp [OCSP.certificate_ocsp_data, hl1]
  · intro kid url h1 h2 hk
    refine ⟨?_, h20 _⟩
    unfold OCSP.certificate_ocsp_data
    rw [h1, h2]

/-- Witness for C8: a certificate with exactly one AKI and one AIA/OCSP
extension yields the issuer-name hash, the verbatim key identifier and the
serial; one lacking the AIA/OCSP extension fails. -/
theorem claim_C8_certificate_ocsp_data_witness :
    OCSP.certificate_ocsp_data (fun _ => List.replicate 20 0)
        ⟨[3], 42, [.aki (List.replicate 20 1), .aiaOcsp "http"]⟩ =
      .ok (List.replicate 20 0, List.replicate 20 1, 42, "http") ∧
    (List.replicate 20 (0 : Nat)).length = 20 ∧
    OCSP.certificate_ocsp_data (fun _ => List.replicate 20 0)
        ⟨[3], 42, [.aki (List.replicate 20 1)]⟩ =
      .error .DuplicateExtensionException := by
  refine ⟨?_, ?_, ?_⟩
  · exact ((claim_C8_certificate_ocsp_data (fun _ => List.replicate 20 0)
      ⟨[3], 42, [.aki (List.replicate 20 1), .aiaOcsp "http"]⟩
      (fun _ => List.length_replicate _ _)).2 (List.replicate 20 1) "http" rfl rfl
      (by decide)).1
  · exact ((claim_C8_certificate_ocsp_data (fun _ => List.replicate 20 0)
      ⟨[3], 42, [.aki (List.replicate 20 1), .aiaOcsp "http"]⟩
      (fun _ => List.length_replicate _ _)).2 (List.replicate 20 1) "http" rfl rfl
      (by decide)).2
  · exact (claim_C8_certificate_ocsp_data (fun _ => List.replicate 20 0)
      ⟨[3], 42, [.aki (List.replicate 20 1)]⟩
      (fun _ => List.length_replicate _ _)).1 (Or.inr (by decide))

/-- C9: for every subject name and public key info, the CSR TBS built by
`_create_tbs` has version 0 and carries two accumulated PKCS#9
extension-request attributes: Basic Constraints (`2.5.29.19`, CA=true,
critical) first and Key Usage (`2.5.29.15`, critical, with the
digitalSignature, keyCertSign and cRLSign bits of `'100001100'` set)
second — neither overwrites the other. -/
theorem claim_C9_csr_tbs_attributes
    (subject_name : List (String × String)) (pk_info : List Nat) :
    (RootCA._create_tbs subject_name pk_info).version = some 0 ∧
    (RootCA._create_tbs subject_name pk_info).attributes =
      [⟨"1.2.840.113549.1.9.14",
        [[⟨"2.5.29.19", true, .basicConstraints true⟩]]⟩,
       ⟨"1.2.840.113549.1.9.14",
        [[⟨"2.5.29.15", true, .keyUsage RootCA.keyUsageBits⟩]]⟩] ∧
    RootCA.keyUsageBits =
      [true, false, false, false, false, true, true, false, false] :=
  ⟨rfl, rfl, by decide⟩

/-- Witness for C9: the TBS built for a one-attribute subject name. -/
theorem claim_C9_csr_tbs_attributes_witness :
    (RootCA._create_tbs [("country_name", "SE")] [1]).version = some 0 ∧
    (RootCA._create_tbs [("country_name", "SE")] [1]).attributes =
      [⟨"1.2.840.113549.1.9.14",
        [[⟨"2.5.29.19", true, .basicConstraints true⟩]]⟩,
       ⟨"1.2.840.113549.1.9.14",
        [[⟨"2.5.29.15", true, .keyUsage RootCA.keyUsageBits⟩]]⟩] ∧
    RootCA.keyUsageBits =
      [true, false, false, false, false, true, true, false, false] :=
  claim_C9_csr_tbs_attributes [("country_name", "SE")] [1]
